import Mathlib

/-!
Verification development for the automation engine of the letsgrow platform
(`backend/app/services/automation_engine.py`).

Conventions of the shallow embedding:
* Timestamps (`datetime.utcnow()`) are modelled as `Nat` seconds since an
  epoch aligned to midnight UTC, so `now / 60 % 1440` is the minute of day
  that `now.strftime "%H:%M"` renders.  `timedelta` comparisons are done on
  `Int` differences in seconds, matching Python's signed `timedelta`.
* A well-formed `"HH:MM"` entry of the `times` condition list is encoded as
  its minute of day `60*HH + MM : Nat`; for such entries Python's string
  comparison `current_time in scheduled_times` coincides with membership of
  the current minute of day in the encoded list, and `strptime` never raises.
* Python `float` percentages are modelled as exact rationals `ℚ`; the values
  produced by the engine on the inputs considered here are small exact
  fractions, so no rounding behaviour is involved.
* Dynamic dicts (`trigger_conditions`, `action_parameters`) are modelled as
  structures holding exactly the keys the engine reads, with `Option` fields
  where the code uses `dict.get` with a default.
* Exceptions are modelled as `Except String`; an external collaborator call
  that may raise is passed in as a function returning `Except`.
-/

namespace Automation

/-- `TriggerType` enum of the source. -/
inductive TriggerType where
  | timeBased
  | engagementBased
  | trendingTopic
  | followerMilestone
  | competitorActivity
  | contentPerformance
deriving DecidableEq, Repr

/-- `ActionType` enum of the source. -/
inductive ActionType where
  | createPost
  | schedulePost
  | engageWithContent
  | followUsers
  | analyzePerformance
  | sendNotification
deriving DecidableEq, Repr

/-- The keys of the `trigger_conditions` dict that `_check_time_trigger`
reads: `conditions.get("schedule")` and `conditions.get("times", [])`.
Each `times` entry encodes a well-formed zero-padded `"HH:MM"` string as
its minute of day.  The `"timezone"` key is never read by the code. -/
structure TriggerConditions where
  schedule : Option String
  times : List Nat
deriving DecidableEq, Repr

/-- The keys of the `action_parameters` dict that `_execute_create_post`
reads, each `none` when the key is absent (the code supplies the default
at the read site via `dict.get`). -/
structure ActionParameters where
  contentTopics : Option (List String)
  platforms : Option (List String)
  tone : Option String
  length : Option String
  includeHashtags : Option Bool
deriving DecidableEq, Repr

/-- `AutomationRule` dataclass of the source.  `successRate` is the
`success_rate` float (default `100.0`), modelled as `ℚ`. -/
structure AutomationRule where
  id : String
  name : String
  description : String
  triggerType : TriggerType
  triggerConditions : TriggerConditions
  actionType : ActionType
  actionParameters : ActionParameters
  isActive : Bool
  createdAt : Option Nat
  lastExecuted : Option Nat
  executionCount : Nat
  successRate : ℚ
deriving DecidableEq, Repr

/-- One per-platform payload assembled by `_execute_create_post`
(`post_data` dict). -/
structure PostData where
  platform : String
  content : String
  hashtags : List String
  engagementScore : ℚ
  createdByAutomation : Bool
  ruleId : String
deriving DecidableEq, Repr

/-- The fields of the content returned by
`ai_content_service.generate_content` that `_execute_create_post` reads. -/
structure GeneratedContent where
  text : String
  hashtags : List String
  engagementScore : ℚ
deriving DecidableEq, Repr

/-- `ContentRequest` built by `_execute_create_post` for each platform. -/
structure ContentRequest where
  topic : String
  platform : String
  tone : String
  length : String
  includeHashtags : Bool
deriving DecidableEq, Repr

/-- The `result` dict of an execution: one constructor per shape the
`_execute_*` action handlers return; `empty` is the `{}` used when the
action produced no result (`result or {}`) and on the failure path. -/
inductive ActionResult where
  | createPost (postsCreated : Nat) (posts : List PostData)
  | schedulePost (scheduledPosts : Nat)
  | engagement (engagements : Nat)
  | followUsers (usersFollowed : Nat)
  | analyzePerformance (analysisCompleted : Bool)
  | empty
deriving DecidableEq, Repr

/-- `AutomationExecution` dataclass of the source. -/
structure AutomationExecution where
  ruleId : String
  executedAt : Nat
  success : Bool
  result : ActionResult
  errorMessage : Option String
deriving DecidableEq, Repr

/-- `_check_time_trigger(rule)` with the clock passed explicitly:
debounce (23 h for `"daily"`, 55 min for `"hourly"` since `last_executed`),
then the scheduled-times match — exact `"HH:MM"` match, else the ±5-minute
minute-of-day window; an empty `times` list always matches. -/
def checkTimeTrigger (rule : AutomationRule) (now : Nat) : Bool :=
  let conditions := rule.triggerConditions
  let debounced : Bool :=
    match rule.lastExecuted with
    | none => false
    | some t =>
      if conditions.schedule = some "daily" then
        decide ((now : Int) - (t : Int) < 23 * 3600)
      else if conditions.schedule = some "hourly" then
        decide ((now : Int) - (t : Int) < 55 * 60)
      else false
  if debounced then false
  else
    let currentMinutes := now / 60 % 1440
    if conditions.times ≠ [] ∧ currentMinutes ∉ conditions.times then
      conditions.times.any
        (fun t => decide (((t : Int) - (currentMinutes : Int)).natAbs ≤ 5))
    else true

/-- `len([ex for ex in history if ex.rule_id == rule_id])`. -/
def countForRule (hist : List AutomationExecution) (rid : String) : Nat :=
  (hist.filter (fun ex => ex.ruleId == rid)).length

/-- `len([ex for ex in history if ex.rule_id == rule_id and ex.success])`. -/
def countSuccessesFor (hist : List AutomationExecution) (rid : String) : Nat :=
  (hist.filter (fun ex => ex.ruleId == rid && ex.success)).length

/-- The success-rate recomputation of `_execute_rule` lines 347–350:
`(successful / total) * 100 if total > 0 else 100`. -/
def successRateFromHistory (hist : List AutomationExecution) (rid : String) : ℚ :=
  let total := countForRule hist rid
  let successful := countSuccessesFor hist rid
  if 0 < total then ((successful : ℚ) / (total : ℚ)) * 100 else 100

/-- `_execute_rule(rule)`: the action handler's outcome is passed in as
`actionResult` (`.ok r` when the dispatched `_execute_*` handler returned
`r`, `.error e` when it raised `e`).  On success: append a successful
`AutomationExecution`, set `last_executed := now`, increment
`execution_count`.  On failure (the `except` block): append a failed
record carrying the error message and recompute `success_rate` from the
history; `last_executed` and `execution_count` are not touched there.
Both `utcnow()` calls of the success path are modelled as the same `now`. -/
def executeRule (now : Nat) (actionResult : Except String ActionResult)
    (rule : AutomationRule) (hist : List AutomationExecution) :
    AutomationRule × List AutomationExecution :=
  match actionResult with
  | .ok result =>
    let execution : AutomationExecution :=
      { ruleId := rule.id, executedAt := now, success := true
        result := result, errorMessage := none }
    let rule := { rule with
      lastExecuted := some now, executionCount := rule.executionCount + 1 }
    (rule, hist ++ [execution])
  | .error e =>
    let execution : AutomationExecution :=
      { ruleId := rule.id, executedAt := now, success := false
        result := .empty, errorMessage := some e }
    let hist := hist ++ [execution]
    let rule := { rule with successRate := successRateFromHistory hist rule.id }
    (rule, hist)

/-- The `ContentRequest` that `_execute_create_post` builds for one
platform: topic and platform, with `tone`/`length`/`include_hashtags`
read from `action_parameters` with defaults `"professional"`, `"medium"`,
`true`. -/
def buildContentRequest (params : ActionParameters) (topic platform : String) :
    ContentRequest :=
  { topic := topic, platform := platform
    tone := params.tone.getD "professional"
    length := params.length.getD "medium"
    includeHashtags := params.includeHashtags.getD true }

/-- The `post_data` record assembled for one platform from generated
content. -/
def postDataFor (rid platform : String) (c : GeneratedContent) : PostData :=
  { platform := platform, content := c.text, hashtags := c.hashtags
    engagementScore := c.engagementScore, createdByAutomation := true
    ruleId := rid }

/-- The `for platform in platforms` loop of `_execute_create_post`.
`gen` is `ai_content_service.generate_content`, which may raise.  The
first component records, in order, the platforms for which a content
request was actually issued; a raised exception propagates out of the
loop, so generation stops at the first failing platform. -/
def createPostLoop (gen : ContentRequest → Except String GeneratedContent)
    (rid topic : String) (params : ActionParameters) :
    List String → List String × Except String (List PostData)
  | [] => ([], .ok [])
  | platform :: rest =>
    match gen (buildContentRequest params topic platform) with
    | .error e => ([platform], .error e)
    | .ok c =>
      let next := createPostLoop gen rid topic params rest
      (platform :: next.1, next.2.map (fun l => postDataFor rid platform c :: l))

/-- `_execute_create_post(rule)` for a given choice `topic` of
`random.choice(content_topics)`: iterate over
`params.get("platforms", ["twitter"])` and return
`{"posts_created": len(results), "posts": results}`, or propagate the
first generation error.  The first component is the trace of platforms
for which a request was issued. -/
def executeCreatePost (gen : ContentRequest → Except String GeneratedContent)
    (rid topic : String) (params : ActionParameters) :
    List String × Except String ActionResult :=
  let platforms := params.platforms.getD ["twitter"]
  let run := createPostLoop gen rid topic params platforms
  (run.1, run.2.map (fun posts => .createPost posts.length posts))

/-- `_check_and_execute_rules`: iterate over the rules, skip inactive
ones, and run evaluation + execution of each rule (`step`, which may
raise) inside the per-rule `try`/`except` — an error leaves the state as
it was and the loop continues.  The first component records, in order,
the ids of the active rules that were evaluated. -/
def checkAndExecuteRules {α : Type} (step : AutomationRule → α → Except String α) :
    List AutomationRule → α → List String × α
  | [], s => ([], s)
  | rule :: rest, s =>
    if rule.isActive then
      let s2 := match step rule s with
        | .ok s3 => s3
        | .error _ => s
      let next := checkAndExecuteRules step rest s2
      (rule.id :: next.1, next.2)
    else checkAndExecuteRules step rest s

/-- The `while self.is_running` loop of `start_automation`, unrolled for
`ticks` iterations: each tick (`tickE`, which may raise an infrastructure
error) runs inside `try`/`except`; on error the loop backs off and
resumes with the state it had, and in no case does an exception leave the
loop. -/
def startAutomationRun {α : Type} (tickE : α → Except String α) :
    Nat → α → Except String α
  | 0, s => .ok s
  | n + 1, s =>
    match tickE s with
    | .ok s2 => startAutomationRun tickE n s2
    | .error _ => startAutomationRun tickE n s

/-- Observable scheduling events of the engine: the moment
`_execute_rule(rule)` is entered and the moment it returns. -/
inductive EngineEvent where
  | startExec (rid : String)
  | finishExec (rid : String)
deriving DecidableEq, Repr

/-- The events one rule contributes to a tick.  `_check_and_execute_rules`
awaits `_execute_rule` before moving to the next rule, so when an active
rule fires its start and finish are adjacent; `fired` abstracts
`_should_execute_rule`. -/
def ruleEvents (fired : AutomationRule → Bool) (rule : AutomationRule) :
    List EngineEvent :=
  if rule.isActive && fired rule then
    [.startExec rule.id, .finishExec rule.id]
  else []

/-- The event trace of one tick over the rule list. -/
def tickEvents (fired : AutomationRule → Bool) (rules : List AutomationRule) :
    List EngineEvent :=
  rules.flatMap (ruleEvents fired)

/-- The event trace of a run of the engine loop: `start_automation`
awaits `_check_and_execute_rules` before sleeping, so ticks do not
overlap; `ticks` holds the rule list seen by each successive tick. -/
def engineEvents (fired : AutomationRule → Bool)
    (ticks : List (List AutomationRule)) : List EngineEvent :=
  ticks.flatMap (tickEvents fired)

/-- Number of executions of rule `rid` in flight after the events `evs`:
starts minus finishes. -/
def inFlight (rid : String) (evs : List EngineEvent) : Int :=
  (evs.count (.startExec rid) : Int) - (evs.count (.finishExec rid) : Int)

/-- An `action_parameters` dict with none of the optional keys present. -/
def sampleParams : ActionParameters :=
  { contentTopics := none, platforms := none, tone := none
    length := none, includeHashtags := none }

/-- A concrete time-based rule in its initial bookkeeping state, shaped
like the default `daily_content_posting` rule (times 09:00, 13:00,
17:00). -/
def sampleRule : AutomationRule :=
  { id := "r1", name := "Daily Content Posting", description := ""
    triggerType := .timeBased
    triggerConditions := { schedule := some "daily", times := [540, 780, 1020] }
    actionType := .createPost
    actionParameters := sampleParams
    isActive := true, createdAt := some 0, lastExecuted := none
    executionCount := 0, successRate := 100 }

/-- State after one failed execution of `sampleRule` at time 100 on an
empty history. -/
def stateAfterFailure : AutomationRule × List AutomationExecution :=
  executeRule 100 (.error "generation failed") sampleRule []

/-- State after the failed execution of `stateAfterFailure` followed by a
successful execution at time 200. -/
def stateAfterFailureThenSuccess : AutomationRule × List AutomationExecution :=
  executeRule 200 (.ok (.createPost 0 [])) stateAfterFailure.1 stateAfterFailure.2

/-- `sampleRule` with the `times` list of a single `"09:00"` entry and the
given `schedule`; `lastExecuted` is `none`, so no debounce window is
active. -/
def nineAmRule (sched : Option String) : AutomationRule :=
  { sampleRule with triggerConditions := { schedule := sched, times := [540] } }

/-- `sampleRule` with `times = ["00:00"]` and the given `schedule`;
`lastExecuted` is `none`. -/
def midnightRule (sched : Option String) : AutomationRule :=
  { sampleRule with triggerConditions := { schedule := sched, times := [0] } }

/-- A daily rule with an empty `times` list whose last execution was at
time 0. -/
def emptyTimesRule : AutomationRule :=
  { sampleRule with
    triggerConditions := { schedule := some "daily", times := [] }
    lastExecuted := some 0 }

/-- A concrete generated-content value. -/
def sampleContent : GeneratedContent :=
  { text := "hello", hashtags := ["#growth"], engagementScore := 75 }

/-- A content generator that raises for the `"twitter"` platform and
succeeds for every other platform. -/
def flakyGen : ContentRequest → Except String GeneratedContent :=
  fun req =>
    if req.platform = "twitter" then .error "rate limit exceeded"
    else .ok sampleContent

/-- A content generator that always raises. -/
def failingGen : ContentRequest → Except String GeneratedContent :=
  fun _ => .error "provider down"

/-- `action_parameters` listing the platforms `["twitter", "linkedin"]`. -/
def twoPlatformParams : ActionParameters :=
  { contentTopics := some ["growth"], platforms := some ["twitter", "linkedin"]
    tone := none, length := none, includeHashtags := none }

/-- `action_parameters` listing the single platform `["twitter"]`. -/
def onePlatformParams : ActionParameters :=
  { contentTopics := some ["growth"], platforms := some ["twitter"]
    tone := none, length := none, includeHashtags := none }

/-- Claim C1, counterexample: the engine does not recompute
`success_rate` after a successful execution.  After one failed and then
one successful execution of `sampleRule`, the stored rate is still 0,
while the rate recomputed from the history (1 success out of 2 records)
is 50. -/
theorem c1_success_rate_stale_after_success :
    stateAfterFailureThenSuccess.1.successRate = 0 ∧
    successRateFromHistory stateAfterFailureThenSuccess.2
      stateAfterFailureThenSuccess.1.id = 50 ∧
    stateAfterFailureThenSuccess.1.successRate ≠
      successRateFromHistory stateAfterFailureThenSuccess.2
        stateAfterFailureThenSuccess.1.id := by
  have h1 : stateAfterFailureThenSuccess.1.successRate = 0 := by
    norm_num [stateAfterFailureThenSuccess, stateAfterFailure, executeRule,
      successRateFromHistory, countForRule, countSuccessesFor, sampleRule,
      List.filter]
  have h2 : successRateFromHistory stateAfterFailureThenSuccess.2
      stateAfterFailureThenSuccess.1.id = 50 := by
    norm_num [stateAfterFailureThenSuccess, stateAfterFailure, executeRule,
      successRateFromHistory, countForRule, countSuccessesFor, sampleRule,
      List.filter]
  refine ⟨h1, h2, ?_⟩
  rw [h1, h2]
  norm_num

/-- Claim C1, amended: the engine recomputes `success_rate` from the
execution history filtered by the rule's id only after a failed
execution attempt, where it then equals
100 × successes / executions over that history (the 0-record guard of
the code is unreachable there, since the failed record was just
appended); after a successful attempt `success_rate` is left
unchanged. -/
theorem c1_success_rate_recompute_on_failure_only
    (now : Nat) (e : String) (res : ActionResult)
    (rule : AutomationRule) (hist : List AutomationExecution) :
    (executeRule now (.error e) rule hist).1.successRate =
      successRateFromHistory (executeRule now (.error e) rule hist).2 rule.id ∧
    0 < countForRule (executeRule now (.error e) rule hist).2 rule.id ∧
    (executeRule now (.error e) rule hist).1.successRate =
      ((countSuccessesFor (executeRule now (.error e) rule hist).2 rule.id : ℚ) /
        (countForRule (executeRule now (.error e) rule hist).2 rule.id : ℚ)) * 100 ∧
    (executeRule now (.ok res) rule hist).1.successRate = rule.successRate := by
  have hpos : 0 < countForRule (executeRule now (.error e) rule hist).2 rule.id := by
    simp [executeRule, countForRule, List.filter_append]
  refine ⟨rfl, hpos, ?_, rfl⟩
  show successRateFromHistory (executeRule now (.error e) rule hist).2 rule.id = _
  rw [successRateFromHistory, if_pos hpos]

/-- Claim C2, counterexample: a failed execution appends a failed record
to the history but does not increment `execution_count`: after one
failed execution of `sampleRule`, `execution_count` is still 0 while the
history holds 1 record with its rule id. -/
theorem c2_execution_count_not_incremented_on_failure :
    stateAfterFailure.1.executionCount = 0 ∧
    countForRule stateAfterFailure.2 stateAfterFailure.1.id = 1 ∧
    stateAfterFailure.1.executionCount ≠
      countForRule stateAfterFailure.2 stateAfterFailure.1.id := by
  refine ⟨by decide, by decide, by decide⟩

/-- Claim C2, amended: a failed execution appends an
`AutomationExecution` with `success = false` and a non-null
`errorMessage`, but leaves `execution_count` unchanged; when all
executions go through the engine, `execution_count` equals the count of
SUCCESSFUL records with the rule's id (and this invariant is preserved
by both outcomes of every execution attempt). -/
theorem c2_execution_count_counts_successes
    (now : Nat) (actionResult : Except String ActionResult)
    (rule : AutomationRule) (hist : List AutomationExecution)
    (h : rule.executionCount = countSuccessesFor hist rule.id) :
    (executeRule now actionResult rule hist).1.executionCount =
      countSuccessesFor (executeRule now actionResult rule hist).2 rule.id ∧
    ∀ e, actionResult = .error e →
      (executeRule now actionResult rule hist).2 =
        hist ++ [{ ruleId := rule.id, executedAt := now, success := false
                   result := .empty, errorMessage := some e }] ∧
      (executeRule now actionResult rule hist).1.executionCount =
        rule.executionCount := by
  cases actionResult with
  | ok res =>
    refine ⟨?_, by intro e he; cases he⟩
    simp [executeRule, countSuccessesFor, List.filter_append, h]
  | error e =>
    refine ⟨?_, by intro e2 he2; cases he2; exact ⟨rfl, rfl⟩⟩
    simp [executeRule, countSuccessesFor, List.filter_append, h]

/-- Witness for `c2_execution_count_counts_successes` at `sampleRule`
with an empty history and a failing action. -/
theorem c2_execution_count_counts_successes_witness :
    sampleRule.executionCount = countSuccessesFor [] sampleRule.id ∧
    ((executeRule 100 (.error "boom") sampleRule []).1.executionCount =
        countSuccessesFor (executeRule 100 (.error "boom") sampleRule []).2
          sampleRule.id ∧
      ∀ e, (Except.error "boom" : Except String ActionResult) = .error e →
        (executeRule 100 (.error "boom") sampleRule []).2 =
          [] ++ [{ ruleId := sampleRule.id, executedAt := 100, success := false
                   result := .empty, errorMessage := some e }] ∧
        (executeRule 100 (.error "boom") sampleRule []).1.executionCount =
          sampleRule.executionCount) :=
  ⟨by decide,
   c2_execution_count_counts_successes 100 (.error "boom") sampleRule [] (by decide)⟩

/-- Claim C3, confirmed: for a time-based rule whose `last_executed` is
`T`, the trigger check returns false at every `now` strictly inside the
23-hour window after `T` when `schedule = "daily"`, and inside the
55-minute window when `schedule = "hourly"`. -/
theorem c3_debounce_window (rule : AutomationRule) (T now : Nat)
    (hlast : rule.lastExecuted = some T)
    (h : (rule.triggerConditions.schedule = some "daily" ∧
            T < now ∧ now < T + 23 * 3600) ∨
         (rule.triggerConditions.schedule = some "hourly" ∧
            T < now ∧ now < T + 55 * 60)) :
    checkTimeTrigger rule now = false := by
  rcases h with ⟨hs, h1, h2⟩ | ⟨hs, h1, h2⟩ <;>
    simp [checkTimeTrigger, hlast, hs] <;> omega

/-- Witness for `c3_debounce_window`: a daily rule last executed at time
0 does not fire at time 100. -/
theorem c3_debounce_window_witness :
    ({ sampleRule with lastExecuted := some 0 } : AutomationRule).lastExecuted
        = some 0 ∧
    ({ sampleRule with lastExecuted := some 0 }
        : AutomationRule).triggerConditions.schedule = some "daily" ∧
    (0 : Nat) < 100 ∧ (100 : Nat) < 0 + 23 * 3600 ∧
    checkTimeTrigger { sampleRule with lastExecuted := some 0 } 100 = false :=
  ⟨rfl, rfl, by decide, by decide,
   c3_debounce_window { sampleRule with lastExecuted := some 0 } 0 100 rfl
     (Or.inl ⟨rfl, by decide, by decide⟩)⟩

/-- Claim C6, confirmed: for a rule with `times = ["09:00"]` (minute of
day 540) and no debounce window, the trigger fires at 09:03 UTC (second
32580 of the day) and not at 09:10 UTC (second 33000); in general it
fires exactly when the absolute minute-of-day difference to 540 is at
most 5.  The code never reads the `"timezone"` condition and always uses
the UTC clock. -/
theorem c6_five_minute_tolerance (sched : Option String) :
    checkTimeTrigger (nineAmRule sched) 32580 = true ∧
    checkTimeTrigger (nineAmRule sched) 33000 = false ∧
    ∀ now : Nat,
      checkTimeTrigger (nineAmRule sched) now =
        decide (((540 : Int) - ((now / 60 % 1440 : Nat) : Int)).natAbs ≤ 5) := by
  refine ⟨rfl, rfl, ?_⟩
  intro now
  by_cases hm : now / 60 % 1440 = 540
  · simp [checkTimeTrigger, nineAmRule, sampleRule, hm]
  · simp [checkTimeTrigger, nineAmRule, sampleRule, hm]

/-- Claim C7, confirmed: a time-based rule whose `times` list is empty
fires on every poll once the debounce window (if any) has passed. -/
theorem c7_empty_times_fires_every_poll (rule : AutomationRule) (now : Nat)
    (htimes : rule.triggerConditions.times = [])
    (hdeb : ∀ t, rule.lastExecuted = some t →
      (rule.triggerConditions.schedule = some "daily" →
        (t : Int) + 23 * 3600 ≤ now) ∧
      (rule.triggerConditions.schedule = some "hourly" →
        (t : Int) + 55 * 60 ≤ now)) :
    checkTimeTrigger rule now = true := by
  cases hlast : rule.lastExecuted with
  | none => simp [checkTimeTrigger, hlast, htimes]
  | some t =>
    obtain ⟨hd, hh⟩ := hdeb t hlast
    by_cases hs : rule.triggerConditions.schedule = some "daily"
    · have := hd hs
      simp [checkTimeTrigger, hlast, htimes, hs]
      omega
    · by_cases hs2 : rule.triggerConditions.schedule = some "hourly"
      · have := hh hs2
        simp [checkTimeTrigger, hlast, htimes, hs, hs2]
        omega
      · simp [checkTimeTrigger, hlast, htimes, hs, hs2]

/-- Witness for `c7_empty_times_fires_every_poll`: `emptyTimesRule`
(daily, last executed at 0, empty `times`) fires at time 90000, which is
past the 82800-second debounce window. -/
theorem c7_empty_times_fires_every_poll_witness :
    emptyTimesRule.triggerConditions.times = [] ∧
    checkTimeTrigger emptyTimesRule 90000 = true :=
  ⟨rfl,
   c7_empty_times_fires_every_poll emptyTimesRule 90000 rfl
     (by
       intro t ht
       refine ⟨fun _ => ?_, fun hh => ?_⟩
       · cases ht; decide
       · exact absurd hh (by decide))⟩

/-- Claim C9, confirmed: the ±5-minute tolerance does not wrap around
midnight.  For a rule with `times = ["00:00"]` and no debounce window,
at 23:58 UTC of any day (second `d * 86400 + 86280`) the current minute
of day is 1438, the non-circular distance to minute 0 is 1438 (not 2),
and the trigger does not fire. -/
theorem c9_no_midnight_wraparound (sched : Option String) (d : Nat) :
    (d * 86400 + 86280) / 60 % 1440 = 1438 ∧
    ((0 : Int) - 1438).natAbs = 1438 ∧
    checkTimeTrigger (midnightRule sched) (d * 86400 + 86280) = false := by
  have hm : (d * 86400 + 86280) / 60 % 1440 = 1438 := by omega
  refine ⟨hm, by decide, ?_⟩
  simp [checkTimeTrigger, midnightRule, sampleRule, hm]

/-- Claim C10, confirmed: a failed execution leaves `last_executed` (and
`execution_count` and the trigger conditions) unchanged — it only
appends the failed record to the history and recomputes the success
rate — so the time-trigger check behaves on the updated rule exactly as
on the original one, and no new debounce window starts. -/
theorem c10_failure_preserves_last_executed
    (now : Nat) (e : String) (rule : AutomationRule)
    (hist : List AutomationExecution) :
    (executeRule now (.error e) rule hist).1.lastExecuted =
        rule.lastExecuted ∧
    (executeRule now (.error e) rule hist).1.executionCount =
        rule.executionCount ∧
    (executeRule now (.error e) rule hist).1.triggerConditions =
        rule.triggerConditions ∧
    (∀ t : Nat, checkTimeTrigger (executeRule now (.error e) rule hist).1 t =
        checkTimeTrigger rule t) ∧
    (executeRule now (.error e) rule hist).2 =
      hist ++ [{ ruleId := rule.id, executedAt := now, success := false
                 result := .empty, errorMessage := some e }] ∧
    (executeRule now (.error e) rule hist).1.successRate =
      successRateFromHistory (executeRule now (.error e) rule hist).2
        rule.id :=
  ⟨rfl, rfl, rfl, fun _ => rfl, rfl, rfl⟩

/-- Claim C4, counterexample: with a generator that raises for
`"twitter"` and succeeds for `"linkedin"`, and the platform list
`["twitter", "linkedin"]`, only `"twitter"` is ever requested — the
exception aborts the loop, `"linkedin"` gets no content request and no
per-platform payload appears in the action's outcome, which is the
propagated error. -/
theorem c4_later_platforms_not_requested :
    (executeCreatePost flakyGen "r1" "growth" twoPlatformParams).1 =
        ["twitter"] ∧
    "linkedin" ∉ (executeCreatePost flakyGen "r1" "growth" twoPlatformParams).1 ∧
    (executeCreatePost flakyGen "r1" "growth" twoPlatformParams).2 =
      .error "rate limit exceeded" :=
  ⟨rfl, by decide, rfl⟩

/-- The platform loop of `_execute_create_post` stops at the first
platform whose generation raises: the platforms before it succeed, the
failing one is requested, and the error propagates. -/
theorem createPostLoop_stops_at_first_error
    (gen : ContentRequest → Except String GeneratedContent)
    (rid topic : String) (params : ActionParameters) :
    ∀ (ps : List String) (p : String) (rest : List String) (e : String),
      (∀ q ∈ ps, ∃ c, gen (buildContentRequest params topic q) = .ok c) →
      gen (buildContentRequest params topic p) = .error e →
      createPostLoop gen rid topic params (ps ++ p :: rest) =
        (ps ++ [p], .error e) := by
  intro ps
  induction ps with
  | nil =>
    intro p rest e _ hfail
    simp [createPostLoop, hfail]
  | cons q qs ih =>
    intro p rest e hok hfail
    obtain ⟨c, hc⟩ := hok q (List.mem_cons_self q qs)
    have hrec := ih p rest e (fun x hx => hok x (List.mem_cons_of_mem q hx)) hfail
    simp [createPostLoop, hc, hrec, Except.map]

/-- Claim C4, amended: a ContentGenerator failure for one platform fails
the whole CreatePost action — content requests are issued, in order,
only for the platforms up to and including the first failing one, no
request is made for the remaining platforms, and the action's outcome is
the propagated error (so the engine records a single failed execution
for the rule rather than per-platform payloads). -/
theorem c4_first_failure_aborts_action
    (gen : ContentRequest → Except String GeneratedContent)
    (rid topic : String) (params : ActionParameters)
    (ps rest : List String) (p e : String)
    (hps : params.platforms = some (ps ++ p :: rest))
    (hok : ∀ q ∈ ps, ∃ c, gen (buildContentRequest params topic q) = .ok c)
    (hfail : gen (buildContentRequest params topic p) = .error e) :
    (executeCreatePost gen rid topic params).1 = ps ++ [p] ∧
    (executeCreatePost gen rid topic params).2 = .error e := by
  have h := createPostLoop_stops_at_first_error gen rid topic params
    ps p rest e hok hfail
  simp [executeCreatePost, hps, h, Except.map]

/-- Witness for `c4_first_failure_aborts_action`: an always-failing
generator and the single platform `"twitter"`. -/
theorem c4_first_failure_aborts_action_witness :
    onePlatformParams.platforms = some ([] ++ "twitter" :: []) ∧
    failingGen (buildContentRequest onePlatformParams "growth" "twitter") =
      .error "provider down" ∧
    ((executeCreatePost failingGen "r1" "growth" onePlatformParams).1 =
        [] ++ ["twitter"] ∧
      (executeCreatePost failingGen "r1" "growth" onePlatformParams).2 =
        .error "provider down") :=
  ⟨rfl, rfl,
   c4_first_failure_aborts_action failingGen "r1" "growth" onePlatformParams
     [] [] "twitter" "provider down" rfl (by simp) rfl⟩

/-- Claim C5, confirmed: (1) one pass of `_check_and_execute_rules`
evaluates exactly the active rules, in order, no matter which rules'
evaluation or execution raises — a single rule's error never aborts the
rest of the tick; (2) the `start_automation` loop never returns an error
to its caller, whatever errors the ticks raise. -/
theorem c5_rule_isolation_and_loop_totality :
    (∀ (α : Type) (step : AutomationRule → α → Except String α)
        (rules : List AutomationRule) (s : α),
      (checkAndExecuteRules step rules s).1 =
        (rules.filter (fun r => r.isActive)).map (fun r => r.id)) ∧
    (∀ (α : Type) (tickE : α → Except String α) (n : Nat) (s : α),
      ∃ s2, startAutomationRun tickE n s = .ok s2) := by
  constructor
  · intro α step rules
    induction rules with
    | nil => intro s; rfl
    | cons r rest ih =>
      intro s
      by_cases h : r.isActive
      · simp [checkAndExecuteRules, h, ih]
      · simp [checkAndExecuteRules, h, ih]
  · intro α tickE n
    induction n with
    | zero => intro s; exact ⟨s, rfl⟩
    | succ m ih =>
      intro s
      cases htick : tickE s with
      | ok s2 => simpa [startAutomationRun, htick] using ih s2
      | error err => simpa [startAutomationRun, htick] using ih s

/-- A start event immediately followed by its finish leaves the
in-flight count of every rule unchanged. -/
theorem inFlight_cons_pair (rid i : String) (tail : List EngineEvent) :
    inFlight rid
        (EngineEvent.startExec i :: EngineEvent.finishExec i :: tail) =
      inFlight rid tail := by
  by_cases hi : i = rid <;>
    simp [inFlight, List.count_cons, hi]

/-- Over any prefix (of any length `n`) of the event trace generated by
a flat run of rules, at most one execution of any rule is in flight. -/
theorem inFlight_take_flatMap_le_one (fired : AutomationRule → Bool)
    (rid : String) :
    ∀ (rs : List AutomationRule) (n : Nat),
      inFlight rid ((rs.flatMap (ruleEvents fired)).take n) ≤ 1 := by
  intro rs
  induction rs with
  | nil => intro n; simp [inFlight]
  | cons r rest ih =>
    intro n
    rw [List.flatMap_cons]
    by_cases h : r.isActive && fired r
    · rw [ruleEvents, if_pos h]
      match n with
      | 0 => simp [inFlight]
      | 1 =>
        show inFlight rid [EngineEvent.startExec r.id] ≤ 1
        by_cases hr : r.id = rid <;>
          simp [inFlight, List.count_cons, hr]
      | m + 2 =>
        show inFlight rid
          ((EngineEvent.startExec r.id :: EngineEvent.finishExec r.id ::
            rest.flatMap (ruleEvents fired)).take (m + 2)) ≤ 1
        rw [List.take_succ_cons, List.take_succ_cons, inFlight_cons_pair]
        exact ih m
    · rw [ruleEvents, if_neg h]
      simpa using ih n

/-- The engine trace over successive ticks is the trace of the
flattened rule runs. -/
theorem engineEvents_eq_flatten (fired : AutomationRule → Bool)
    (ticks : List (List AutomationRule)) :
    engineEvents fired ticks = (ticks.flatten).flatMap (ruleEvents fired) := by
  induction ticks with
  | nil => rfl
  | cons t rest ih =>
    simp [engineEvents, tickEvents, List.flatten_cons, List.flatMap_append] at *
    exact ih

/-- Claim C8, confirmed: the engine awaits each `_execute_rule` call
before evaluating the next rule and awaits each full tick before
starting the next, so after any prefix of the resulting event trace at
most one execution of any given rule (indeed of all rules together) is
in flight — a later tick never starts a second action for a rule whose
action has not returned. -/
theorem c8_single_inflight_execution (fired : AutomationRule → Bool)
    (ticks : List (List AutomationRule)) (rid : String) (n : Nat) :
    inFlight rid ((engineEvents fired ticks).take n) ≤ 1 := by
  rw [engineEvents_eq_flatten]
  exact inFlight_take_flatMap_le_one fired rid ticks.flatten n

end Automation
